import Mathlib

/-!
Verification of the local image-library subsystem and the generation request
builders of the photo-studio application.

The library operations are embedded from `App.tsx` (`handleSaveToLibrary`,
`handleDeleteFromLibrary`, `handleExportLibrary`, `handleImportLibrary`, the
`isSaved` membership test, and the `localStorage` load effect).  The three
generation request builders are embedded from `geminiService.ts`
(`generateImageFromText`, `generateImageFromImage`, `generateImageFromTwoImages`).

JSON values are modelled by an inductive type; JavaScript's `JSON.parse` and
`JSON.stringify` are treated as the host environment's (inverse) bridges
between text and such values, so payloads read from files and from storage
are represented by their parse result: `none` when `JSON.parse` throws,
`some j` when it yields the value `j`.  JSON numbers are modelled by
integers, which covers every value the library traffics in (epoch-millisecond
timestamps) and every input the claims mention.
-/

namespace PhotoStudio

/-- The result of parsing a JSON document: null, booleans, numbers
(restricted to integers, see the file header), strings, arrays and objects.
Objects produced by a JSON parse have pairwise-distinct keys (duplicates are
collapsed by the parser), represented here as an association list. -/
inductive Json where
  | null
  | bool (b : Bool)
  | num (n : Int)
  | str (s : String)
  | arr (items : List Json)
  | obj (fields : List (String × Json))

/-- Property access `j.k` as JavaScript performs it on a parsed JSON value:
a key lookup on objects, `none` (undefined) on every other non-null value.
Access on `null` throws a TypeError; callers model that case separately. -/
def Json.get : Json → String → Option Json
  | .obj fields, k => (fields.find? (fun f => f.1 == k)).map (fun f => f.2)
  | _, _ => none

/-- Tests whether a JSON value is the null value (the one value on which a
JavaScript property access throws instead of yielding undefined). -/
def Json.isNull : Json → Bool
  | .null => true
  | _ => false

/-- Field access returning the string content of a string-valued field, and
a default for anything else.  Only applied to fields whose string-ness has
already been validated. -/
def Json.getStr (j : Json) (k : String) : String :=
  match j.get k with
  | some (.str s) => s
  | _ => ""

/-- Field access returning the numeric content of a number-valued field, and
a default for anything else.  Only applied to fields whose numeric-ness has
already been validated. -/
def Json.getNum (j : Json) (k : String) : Int :=
  match j.get k with
  | some (.num n) => n
  | _ => 0

/-- The `SavedImage` record from `types.ts`: the only persisted entity. -/
structure SavedImage where
  id : String
  imageDataUrl : String
  mimeType : String
  prompt : String
  timestamp : Int
deriving DecidableEq

/-- Serialization of one library entry, as `JSON.stringify` renders the
object literal built in `handleSaveToLibrary` (keys in insertion order). -/
def encodeEntry (img : SavedImage) : Json :=
  .obj [("id", .str img.id),
        ("imageDataUrl", .str img.imageDataUrl),
        ("mimeType", .str img.mimeType),
        ("prompt", .str img.prompt),
        ("timestamp", .num img.timestamp)]

/-- Projection of a validated imported JSON object onto the `SavedImage`
record: the four validated fields plus `mimeType` (which the import filter
never validates; a missing or non-string `mimeType` is represented by the
empty string, matching the undefined field of the stored raw object). -/
def decodeEntry (j : Json) : SavedImage :=
  { id := j.getStr "id"
    imageDataUrl := j.getStr "imageDataUrl"
    mimeType := j.getStr "mimeType"
    prompt := j.getStr "prompt"
    timestamp := j.getNum "timestamp" }

/-- The structural validation applied by `handleImportLibrary` to each
parsed array entry (App.tsx lines 289-294):

`item.id && typeof item.id === 'string'` — a truthy string is a non-empty
string; likewise for `imageDataUrl` and `prompt`.
`item.timestamp && typeof item.timestamp === 'number'` — a truthy number is
a non-zero number (JSON cannot produce NaN). -/
def validEntry (item : Json) : Bool :=
  (match item.get "id" with | some (.str s) => s != "" | _ => false) &&
  (match item.get "imageDataUrl" with | some (.str s) => s != "" | _ => false) &&
  (match item.get "prompt" with | some (.str s) => s != "" | _ => false) &&
  (match item.get "timestamp" with | some (.num n) => n != 0 | _ => false)

/-- Structural validation as the specification words it (spec section 4.1 and
claim C8): `id` present and a non-empty string, `imageDataUrl` present and a
string, `prompt` present and a non-empty string, `timestamp` present and
numeric.  Stated from the spec's words for comparison with `validEntry`,
which is translated from the source. -/
def specStructuralValid (item : Json) : Bool :=
  (match item.get "id" with | some (.str s) => s != "" | _ => false) &&
  (match item.get "imageDataUrl" with | some (.str _) => true | _ => false) &&
  (match item.get "prompt" with | some (.str s) => s != "" | _ => false) &&
  (match item.get "timestamp" with | some (.num _) => true | _ => false)

/-- The library mutation of `handleSaveToLibrary` (App.tsx line 241):
`updateLibrary([newImage, ...library])` prepends the new entry. -/
def addImage (library : List SavedImage) (img : SavedImage) : List SavedImage :=
  img :: library

/-- The library mutation of `handleDeleteFromLibrary` (App.tsx lines 244-247):
`library.filter(img => img.id !== id)`. -/
def removeImage (library : List SavedImage) (id : String) : List SavedImage :=
  library.filter (fun img => img.id != id)

/-- The `isSaved` membership test (App.tsx line 455):
`!!library.find(img => img.imageDataUrl === outputImage)`. -/
def markAsSaved (library : List SavedImage) (imageDataUrl : String) : Bool :=
  (library.find? (fun img => img.imageDataUrl == imageDataUrl)).isSome

/-- The JSON value whose pretty-printed text `handleExportLibrary` writes to
the download file: `JSON.stringify(library, null, 2)` of the entry array
(App.tsx line 266). -/
def exportAllJson (library : List SavedImage) : Json :=
  .arr (library.map encodeEntry)

/-- The export operation `handleExportLibrary` (App.tsx lines 264-276):
an empty library produces no file (`if (library.length === 0) return`),
otherwise the serialized entry array is downloaded. -/
def handleExportLibrary (library : List SavedImage) : Option Json :=
  if library.length = 0 then none else some (exportAllJson library)

/-- The failure surfaced by `handleImportLibrary`'s catch handler as the
user-visible `T.importError` alert. -/
inductive ImportError where
  | parse
deriving DecidableEq

/-- The validated entries of an imported array
(`validImportedImages`, App.tsx lines 289-294), as `SavedImage` records. -/
def importCandidates (items : List Json) : List SavedImage :=
  (items.filter validEntry).map decodeEntry

/-- The entries an import actually adds (`newImages`, App.tsx lines 296-297):
validated entries whose `id` is not in the current library
(`existingIds = new Set(library.map(img => img.id))`). -/
def newImagesOf (library : List SavedImage) (items : List Json) : List SavedImage :=
  (importCandidates items).filter
    (fun img => !((library.map SavedImage.id).contains img.id))

/-- The import operation `handleImportLibrary` (App.tsx lines 278-315) on a
payload given by its parse result (`none` = `JSON.parse` threw).

Errors (`JSON.parse` throwing, a non-array top level, or the TypeError
raised by `item.id` when an array entry is `null`) reach the catch handler:
the `T.importError` alert is shown and the library is untouched.  Otherwise
the surviving entries are prepended when there are any
(`updateLibrary([...newImages, ...library])`) and the added count is
surfaced (`T.importSuccess (n)` when positive, `T.noNewImages` when zero,
both normal outcomes). -/
def importMerge (library : List SavedImage) (payload : Option Json) :
    Except ImportError (List SavedImage × Nat) :=
  match payload with
  | some (.arr items) =>
    if items.any Json.isNull then .error .parse
    else
      let newImages := newImagesOf library items
      .ok ((if newImages.length > 0 then newImages ++ library else library),
           newImages.length)
  | _ => .error .parse

/-- The library state after `handleImportLibrary` runs: on any error the
catch handler only alerts, so the state is the previous library. -/
def importMergeState (library : List SavedImage) (payload : Option Json) :
    List SavedImage :=
  match importMerge library payload with
  | .ok (newLib, _) => newLib
  | .error _ => library

/-- The library-load effect (App.tsx lines 189-199) on the initial empty
library state, with storage represented by the result of
`localStorage.getItem` followed by `JSON.parse`:

`none` — the key is absent (or the stored string is empty, hence falsy):
`if (saved)` fails and the state stays `[]`;
`some none` — a non-empty stored string on which `JSON.parse` throws: the
catch handler runs `setLibrary([])`;
`some (some j)` — a stored string parsing to `j`: `setLibrary(JSON.parse(saved))`
installs `j` unchanged, whatever its shape. -/
def loadLibrary : Option (Option Json) → Json
  | some (some j) => j
  | some none => .arr []
  | none => .arr []

/-- An input image as the generation service receives it
(`ImageInput` in geminiService.ts): encoded payload plus media type. -/
structure ImageInput where
  base64 : String
  mimeType : String
deriving DecidableEq

/-- JavaScript truthiness of an optional string argument: `undefined` and
the empty string are falsy, every other string is truthy. -/
def jsTruthyStr : Option String → Bool
  | some s => s != ""
  | none => false

/-- The final prompt computed by each generation function
(geminiService.ts lines 19, 44 and 81): the template literal
`prompt, stylePrompt` when `stylePrompt` is truthy, and `prompt`
unchanged otherwise. -/
def finalPromptOf (prompt : String) (stylePrompt : Option String) : String :=
  if jsTruthyStr stylePrompt then prompt ++ ", " ++ stylePrompt.getD ""
  else prompt

/-- The final prompt as the specification words it (claim C10): exactly the
prompt followed by a comma-space and the style text when the style text is
present and non-empty, and exactly the prompt when it is absent or empty.
Stated from the spec's words for comparison with `finalPromptOf`, which is
translated from the source. -/
def specStyledPrompt (prompt : String) : Option String → String
  | some s => if s = "" then prompt else prompt ++ ", " ++ s
  | none => prompt

/-- The request `generateImageFromText` sends to `ai.models.generateImages`
(geminiService.ts lines 17-29). -/
structure TextGenRequest where
  model : String
  prompt : String
  numberOfImages : Nat
  outputMimeType : String
  aspectRatio : String
deriving DecidableEq

/-- One part of a `generateContent` request body: an inline image payload or
a text segment. -/
inductive Part where
  | inlineData (data : String) (mimeType : String)
  | text (s : String)
deriving DecidableEq

/-- The request the one-image and two-image functions send to
`ai.models.generateContent`. -/
structure ContentGenRequest where
  model : String
  parts : List Part
  responseModalities : List String
deriving DecidableEq

/-- The request built by `generateImageFromText` (geminiService.ts
lines 17-29); the aspect ratio defaults to square as in the source. -/
def generateImageFromText (prompt : String) (stylePrompt : Option String)
    (aspectRatio : String := "1:1") : TextGenRequest :=
  { model := "imagen-4.0-generate-001"
    prompt := finalPromptOf prompt stylePrompt
    numberOfImages := 1
    outputMimeType := "image/png"
    aspectRatio := aspectRatio }

/-- The request built by `generateImageFromImage` (geminiService.ts
lines 42-64): the input image's inline data followed by the final prompt. -/
def generateImageFromImage (prompt : String) (image : ImageInput)
    (stylePrompt : Option String) : ContentGenRequest :=
  { model := "gemini-2.5-flash-image"
    parts := [.inlineData image.base64 image.mimeType,
              .text (finalPromptOf prompt stylePrompt)]
    responseModalities := ["IMAGE"] }

/-- The request built by `generateImageFromTwoImages` (geminiService.ts
lines 79-101): both input images' inline data followed by the final prompt. -/
def generateImageFromTwoImages (prompt : String) (image1 image2 : ImageInput)
    (stylePrompt : Option String) : ContentGenRequest :=
  { model := "gemini-2.5-flash-image"
    parts := [.inlineData image1.base64 image1.mimeType,
              .inlineData image2.base64 image2.mimeType,
              .text (finalPromptOf prompt stylePrompt)]
    responseModalities := ["IMAGE"] }

/-- Library states reachable from the empty library by the three mutation
operations, under the two freshness side conditions of the amended
invariant claim: each `add` is handed an entry whose generated id is fresh
(the source generates ids from a timestamp and a random component and does
not check them against the library), and each successfully imported
payload's validated entries carry pairwise-distinct ids (the source
deduplicates an import batch against the current library only, not within
the batch itself). -/
inductive ReachableFresh : List SavedImage → Prop where
  | empty : ReachableFresh []
  | add (L : List SavedImage) (img : SavedImage) :
      ReachableFresh L → img.id ∉ L.map SavedImage.id →
      ReachableFresh (addImage L img)
  | remove (L : List SavedImage) (id : String) :
      ReachableFresh L → ReachableFresh (removeImage L id)
  | importStep (L L' : List SavedImage) (p : Option Json) (n : Nat) :
      ReachableFresh L →
      (∀ items, p = some (Json.arr items) →
        ((importCandidates items).map SavedImage.id).Nodup) →
      importMerge L p = .ok (L', n) →
      ReachableFresh L'

/-! Helper lemmas shared by the claim theorems. -/

theorem decode_encode (img : SavedImage) : decodeEntry (encodeEntry img) = img := rfl

theorem isNull_encode (img : SavedImage) : Json.isNull (encodeEntry img) = false := rfl

theorem anyNull_encode (L : List SavedImage) :
    (L.map encodeEntry).any Json.isNull = false := by
  rw [List.any_eq_false]
  intro x hx
  rw [List.mem_map] at hx
  obtain ⟨img, _, rfl⟩ := hx
  simp [isNull_encode]

theorem validEntry_encode (img : SavedImage) :
    validEntry (encodeEntry img) =
      ((img.id != "") && (img.imageDataUrl != "") && (img.prompt != "") &&
       (img.timestamp != 0)) := rfl

/-- Unfolding of `importMerge` on a payload whose top level is an array. -/
theorem importMerge_arr (L : List SavedImage) (items : List Json) :
    importMerge L (some (Json.arr items)) =
      if items.any Json.isNull then .error .parse
      else .ok ((if (newImagesOf L items).length > 0
                 then newImagesOf L items ++ L else L),
                (newImagesOf L items).length) := rfl

/-- A successful import always produces the prepended library shape: when
the added batch is empty the two branches of the source's length test
coincide. -/
theorem importMerge_ok_elim {L L' : List SavedImage} {items : List Json} {n : Nat}
    (h : importMerge L (some (Json.arr items)) = .ok (L', n)) :
    L' = newImagesOf L items ++ L ∧ n = (newImagesOf L items).length := by
  rw [importMerge_arr] at h
  split at h
  · cases h
  · by_cases hl : (newImagesOf L items).length > 0
    · rw [if_pos hl] at h
      injection h with h
      exact ⟨(congrArg Prod.fst h).symm, (congrArg Prod.snd h).symm⟩
    · rw [if_neg hl] at h
      injection h with h
      have hnil : newImagesOf L items = [] :=
        List.length_eq_zero.mp (Nat.eq_zero_of_not_pos hl)
      constructor
      · rw [hnil, List.nil_append]; exact (congrArg Prod.fst h).symm
      · exact (congrArg Prod.snd h).symm

theorem contains_ids_iff (L : List SavedImage) (a : String) :
    (L.map SavedImage.id).contains a = true ↔ a ∈ L.map SavedImage.id :=
  List.elem_iff

theorem mem_newImagesOf {L : List SavedImage} {items : List Json} {img : SavedImage} :
    img ∈ newImagesOf L items ↔
      img ∈ importCandidates items ∧ img.id ∉ L.map SavedImage.id := by
  unfold newImagesOf
  rw [List.mem_filter]
  constructor
  · rintro ⟨h1, h2⟩
    refine ⟨h1, fun hmem => ?_⟩
    rw [Bool.not_eq_true'] at h2
    have hc := (contains_ids_iff L img.id).mpr hmem
    rw [h2] at hc
    cases hc
  · rintro ⟨h1, h2⟩
    refine ⟨h1, ?_⟩
    rw [Bool.not_eq_true']
    by_contra hc
    rw [Bool.not_eq_false] at hc
    exact h2 ((contains_ids_iff L img.id).mp hc)

theorem validEntry_implies_spec {j : Json} (h : validEntry j = true) :
    specStructuralValid j = true := by
  unfold validEntry at h
  unfold specStructuralValid
  simp only [Bool.and_eq_true] at h ⊢
  obtain ⟨⟨⟨h1, h2⟩, h3⟩, h4⟩ := h
  refine ⟨⟨⟨h1, ?_⟩, h3⟩, ?_⟩
  · split at h2 <;> simp_all
  · split at h4 <;> simp_all

/-! Claim theorems. -/

/-- Claim C2 (code bug evidence): the load effect recovers from an
unparseable stored value (such as the literal text not-json) by resetting
to the empty library, but a stored value that parses to a non-array — here
the stored text 5, which parses to the number 5 — is installed as the
library state unchanged, not replaced by an empty library as the claim
requires: the code never checks the parsed top level for array-ness. -/
theorem load_corrupt_store_divergence :
    loadLibrary (some none) = Json.arr [] ∧
    loadLibrary none = Json.arr [] ∧
    loadLibrary (some (some (Json.num 5))) = Json.num 5 ∧
    Json.num 5 ≠ Json.arr [] := by
  refine ⟨rfl, rfl, rfl, fun h => ?_⟩
  cases h

/-- Claim C4: for every library and every import payload that is not valid
JSON (the parse result is none) or whose JSON top level is not an array,
the import fails with the parse error — surfaced to the user as the import
failure alert, never as a zero-count success — and the library state is
unchanged. -/
theorem import_malformed_fails (L : List SavedImage) (p : Option Json)
    (h : ∀ items, p ≠ some (Json.arr items)) :
    importMerge L p = .error ImportError.parse ∧ importMergeState L p = L := by
  have he : importMerge L p = .error ImportError.parse := by
    cases p with
    | none => rfl
    | some j =>
      cases j with
      | arr items => exact absurd rfl (h items)
      | null => rfl
      | bool b => rfl
      | num n => rfl
      | str s => rfl
      | obj fields => rfl
  refine ⟨he, ?_⟩
  unfold importMergeState
  rw [he]

theorem import_malformed_fails_witness :
    importMerge [⟨"a", "d", "m", "p", 1⟩] (some (Json.num 7)) =
      .error ImportError.parse ∧
    importMergeState [⟨"a", "d", "m", "p", 1⟩] (some (Json.num 7)) =
      [⟨"a", "d", "m", "p", 1⟩] :=
  import_malformed_fails _ _ (fun _ hc => by cases hc)

/-- Claim C5: for every library L and every image whose id does not occur
in L, removing the image right after adding it restores exactly L. -/
theorem remove_add_cancel (L : List SavedImage) (img : SavedImage)
    (h : img.id ∉ L.map SavedImage.id) :
    removeImage (addImage L img) img.id = L := by
  unfold removeImage addImage
  rw [List.filter_cons]
  simp only [bne_self_eq_false, Bool.false_eq_true, if_false]
  apply List.filter_eq_self.mpr
  intro a ha
  rw [bne_iff_ne]
  intro heq
  exact h (heq ▸ List.mem_map_of_mem SavedImage.id ha)

theorem remove_add_cancel_witness :
    removeImage (addImage [⟨"b", "e", "m2", "q", 2⟩] ⟨"a", "d", "m", "p", 1⟩) "a" =
      [⟨"b", "e", "m2", "q", 2⟩] :=
  remove_add_cancel _ _ (by decide)

/-- Claim C7: for every library L and every entry whose id already occurs
in L, importing the one-element array holding that entry leaves L unchanged
and reports an added count of zero as a normal, non-error outcome. -/
theorem import_duplicate_noop (L : List SavedImage) (e : SavedImage)
    (h : e.id ∈ L.map SavedImage.id) :
    importMerge L (some (Json.arr [encodeEntry e])) = .ok (L, 0) := by
  rw [importMerge_arr]
  have hnull : ([encodeEntry e].any Json.isNull) = false := by
    simp [isNull_encode]
  rw [hnull]
  have hNI : newImagesOf L [encodeEntry e] = [] := by
    apply List.filter_eq_nil_iff.mpr
    intro img hmemc
    unfold importCandidates at hmemc
    rw [List.mem_map] at hmemc
    obtain ⟨jraw, hjmem, rfl⟩ := hmemc
    rw [List.mem_filter] at hjmem
    have hj : jraw = encodeEntry e := List.mem_singleton.mp hjmem.1
    subst hj
    rw [decode_encode]
    rw [Bool.not_eq_true, Bool.not_eq_false']
    exact (contains_ids_iff L e.id).mpr h
  rw [hNI]
  simp

theorem import_duplicate_noop_witness :
    importMerge [⟨"a", "d", "m", "p", 1⟩]
      (some (Json.arr [encodeEntry ⟨"a", "x", "y", "z", 5⟩])) =
      .ok ([⟨"a", "d", "m", "p", 1⟩], 0) :=
  import_duplicate_noop _ _ (by decide)

/-- Claim C9: the saved-image membership test is true exactly when some
entry's imageDataUrl is string-equal to the queried value; in particular,
after adding the entry with the AAAA data url to an empty library the test
is true for that url and false for the BBBB url. -/
theorem markAsSaved_membership :
    (∀ (L : List SavedImage) (s : String),
       markAsSaved L s = true ↔ ∃ img ∈ L, img.imageDataUrl = s) ∧
    markAsSaved (addImage [] ⟨"x1", "data:image/png;base64,AAAA", "image/png", "cat", 1000⟩)
      "data:image/png;base64,AAAA" = true ∧
    markAsSaved (addImage [] ⟨"x1", "data:image/png;base64,AAAA", "image/png", "cat", 1000⟩)
      "data:image/png;base64,BBBB" = false := by
  refine ⟨fun L s => ?_, rfl, rfl⟩
  unfold markAsSaved
  rw [List.find?_isSome]
  constructor
  · rintro ⟨x, hx, he⟩
    exact ⟨x, hx, by simpa using he⟩
  · rintro ⟨x, hx, he⟩
    exact ⟨x, hx, by simp [he]⟩

theorem markAsSaved_membership_witness :
    markAsSaved [⟨"x1", "data:image/png;base64,AAAA", "image/png", "cat", 1000⟩]
      "data:image/png;base64,AAAA" = true ↔
    ∃ img ∈ ([⟨"x1", "data:image/png;base64,AAAA", "image/png", "cat", 1000⟩] :
      List SavedImage), img.imageDataUrl = "data:image/png;base64,AAAA" :=
  markAsSaved_membership.1 _ _

/-- Claim C10: each of the three generation request builders forwards to
the remote service the final prompt formed by appending the style text —
exactly the prompt, a comma and a space, and the style text when the style
text is present and non-empty, and exactly the prompt unchanged when it is
absent or empty (the spec-side form `specStyledPrompt`). -/
theorem style_prompt_forwarded :
    (∀ (p : String) (os : Option String) (ar : String),
       (generateImageFromText p os ar).prompt = specStyledPrompt p os) ∧
    (∀ (p : String) (os : Option String) (img : ImageInput),
       (generateImageFromImage p img os).parts =
         [Part.inlineData img.base64 img.mimeType,
          Part.text (specStyledPrompt p os)]) ∧
    (∀ (p : String) (os : Option String) (i1 i2 : ImageInput),
       (generateImageFromTwoImages p i1 i2 os).parts =
         [Part.inlineData i1.base64 i1.mimeType,
          Part.inlineData i2.base64 i2.mimeType,
          Part.text (specStyledPrompt p os)]) := by
  have hfp : ∀ (p : String) (os : Option String),
      finalPromptOf p os = specStyledPrompt p os := by
    intro p os
    cases os with
    | none => rfl
    | some s =>
      by_cases hs : s = ""
      · subst hs; rfl
      · have hb : (s != "") = true := by simpa [bne_iff_ne] using hs
        simp [finalPromptOf, specStyledPrompt, jsTruthyStr, hb, hs]
  exact ⟨fun p os _ => hfp p os,
         fun p os img => by simp [generateImageFromImage, hfp],
         fun p os i1 i2 => by simp [generateImageFromTwoImages, hfp]⟩

/-- Claim C1 (amended): for every library whose entries have pairwise
distinct ids and all-truthy fields — non-empty id, imageDataUrl and prompt,
and non-zero timestamp — importing the exported file into an empty library
reconstructs the library exactly (same entries, same order) with an added
count equal to its size.  The truthiness conditions are forced by the
JavaScript truthiness tests of the filter, see the counterexample. -/
theorem export_import_round_trip (L : List SavedImage) (f : Json)
    (_hids : (L.map SavedImage.id).Nodup)
    (hfields : ∀ img ∈ L, img.id ≠ "" ∧ img.imageDataUrl ≠ "" ∧
               img.prompt ≠ "" ∧ img.timestamp ≠ 0)
    (hexp : handleExportLibrary L = some f) :
    importMerge [] (some f) = .ok (L, L.length) := by
  have hlen : L.length ≠ 0 ∧ f = exportAllJson L := by
    unfold handleExportLibrary at hexp
    split at hexp
    next h0 => cases hexp
    next h0 => exact ⟨h0, (Option.some.inj hexp).symm⟩
  obtain ⟨hlen, rfl⟩ := hlen
  rw [show exportAllJson L = Json.arr (L.map encodeEntry) from rfl,
      importMerge_arr, anyNull_encode, if_neg Bool.false_ne_true]
  have hNI : newImagesOf [] (L.map encodeEntry) = L := by
    unfold newImagesOf importCandidates
    have h1 : (L.map encodeEntry).filter validEntry = L.map encodeEntry := by
      apply List.filter_eq_self.mpr
      intro x hx
      rw [List.mem_map] at hx
      obtain ⟨img, hm, rfl⟩ := hx
      rw [validEntry_encode]
      obtain ⟨ha, hb, hc, hd⟩ := hfields img hm
      simp [bne_iff_ne, ha, hb, hc, hd]
    rw [h1, List.map_map]
    have h2 : L.map (decodeEntry ∘ encodeEntry) = L := by
      calc L.map (decodeEntry ∘ encodeEntry)
          = L.map id := List.map_congr_left (fun a _ => decode_encode a)
        _ = L := List.map_id L
    rw [h2]
    apply List.filter_eq_self.mpr
    intro a _
    rfl
  rw [hNI, if_pos (Nat.pos_of_ne_zero hlen), List.append_nil]

theorem export_import_round_trip_witness :
    importMerge []
      (some (exportAllJson [⟨"a", "d", "m", "p", 1⟩, ⟨"b", "d2", "m2", "p2", 2⟩])) =
      .ok ([⟨"a", "d", "m", "p", 1⟩, ⟨"b", "d2", "m2", "p2", 2⟩], 2) :=
  export_import_round_trip _ _ (by decide) (by decide) rfl

/-- Claim C1 counterexample: a one-entry library with a pairwise-distinct
(indeed singleton) id set whose entry has an empty imageDataUrl exports to
a file that imports back into an empty library as zero entries: the import
filter's truthiness test drops the entry, so the round trip does not
reconstruct the library. -/
theorem export_import_round_trip_cex :
    handleExportLibrary [⟨"a", "", "m", "p", 1⟩] =
      some (exportAllJson [⟨"a", "", "m", "p", 1⟩]) ∧
    (([⟨"a", "", "m", "p", 1⟩] : List SavedImage).map SavedImage.id).Nodup ∧
    importMerge [] (some (exportAllJson [⟨"a", "", "m", "p", 1⟩])) = .ok ([], 0) ∧
    ([] : List SavedImage) ≠ [⟨"a", "", "m", "p", 1⟩] := by
  refine ⟨rfl, by decide, rfl, by decide⟩

/-- Claim C3 (amended): every library state reachable from the empty
library by add, remove and importMerge has pairwise-distinct entry ids,
provided each add receives a fresh id (the source trusts its
timestamp-plus-random generator and never checks) and each imported
payload's validated entries have pairwise-distinct ids (the source
deduplicates only against the current library, see the counterexample);
moreover add prepends its entry, and a successful import prepends exactly
the surviving batch, whose relative order is a sublist of the validated
candidates in file order. -/
theorem library_invariant_distinct_ids :
    (∀ L, ReachableFresh L → (L.map SavedImage.id).Nodup) ∧
    (∀ (L : List SavedImage) (img : SavedImage), addImage L img = img :: L) ∧
    (∀ (L : List SavedImage) (items : List Json) (L' : List SavedImage) (n : Nat),
       importMerge L (some (Json.arr items)) = .ok (L', n) →
       L' = newImagesOf L items ++ L ∧ n = (newImagesOf L items).length) ∧
    (∀ (L : List SavedImage) (items : List Json),
       (newImagesOf L items).Sublist (importCandidates items)) := by
  refine ⟨?_, fun L img => rfl, fun L items L' n h => importMerge_ok_elim h,
          fun L items => List.filter_sublist _⟩
  intro L h
  induction h with
  | empty => simp
  | add L img hL hfresh ih =>
    rw [show addImage L img = img :: L from rfl, List.map_cons]
    exact List.nodup_cons.mpr ⟨hfresh, ih⟩
  | remove L i hL ih =>
    exact ih.sublist (List.Sublist.map SavedImage.id (List.filter_sublist L))
  | importStep L L' p n hL hbatch heq ih =>
    cases p with
    | none => cases heq
    | some j =>
      cases j with
      | arr items =>
        obtain ⟨rfl, -⟩ := importMerge_ok_elim heq
        rw [List.map_append]
        apply List.nodup_append.mpr
        refine ⟨?_, ih, ?_⟩
        · have hsub : ((newImagesOf L items).map SavedImage.id).Sublist
              ((importCandidates items).map SavedImage.id) :=
            List.Sublist.map SavedImage.id (List.filter_sublist _)
          exact (hbatch items rfl).sublist hsub
        · intro a ha hb
          rw [List.mem_map] at ha
          obtain ⟨img, himg, rfl⟩ := ha
          exact (mem_newImagesOf.mp himg).2 hb
      | null => cases heq
      | bool b => cases heq
      | num m => cases heq
      | str s => cases heq
      | obj fields => cases heq

theorem library_invariant_distinct_ids_witness :
    (([⟨"a", "d", "m", "p", 1⟩] : List SavedImage).map SavedImage.id).Nodup :=
  library_invariant_distinct_ids.1 _
    (ReachableFresh.add [] ⟨"a", "d", "m", "p", 1⟩ ReachableFresh.empty (by decide))

/-- Claim C3 counterexample: one importMerge applied to the empty library,
with a payload holding two valid entries that share the id z, produces a
reachable state whose ids are not pairwise distinct — the source
deduplicates an import batch only against the current library, never
within the batch. -/
theorem library_invariant_distinct_ids_cex :
    importMerge []
      (some (Json.arr
        [Json.obj [("id", Json.str "z"), ("imageDataUrl", Json.str "d1"),
                   ("mimeType", Json.str "m"), ("prompt", Json.str "p"),
                   ("timestamp", Json.num 1)],
         Json.obj [("id", Json.str "z"), ("imageDataUrl", Json.str "d2"),
                   ("mimeType", Json.str "m"), ("prompt", Json.str "p"),
                   ("timestamp", Json.num 2)]])) =
      .ok ([⟨"z", "d1", "m", "p", 1⟩, ⟨"z", "d2", "m", "p", 2⟩], 2) ∧
    ¬ (([⟨"z", "d1", "m", "p", 1⟩, ⟨"z", "d2", "m", "p", 2⟩] :
        List SavedImage).map SavedImage.id).Nodup :=
  ⟨rfl, by decide⟩

/-- Claim C6: importing the same exported file twice is idempotent — the
first import adds exactly the validated entries of the file whose ids are
not already in the library, and the immediately repeated import of the
same file adds zero entries and leaves the library unchanged. -/
theorem import_idempotent (L M L₁ : List SavedImage) (n : Nat) (F : Json)
    (hexp : handleExportLibrary M = some F)
    (h : importMerge L (some F) = .ok (L₁, n)) :
    n = (newImagesOf L (M.map encodeEntry)).length ∧
    L₁ = newImagesOf L (M.map encodeEntry) ++ L ∧
    importMerge L₁ (some F) = .ok (L₁, 0) := by
  have hf : F = exportAllJson M := by
    unfold handleExportLibrary at hexp
    split at hexp
    · cases hexp
    · exact (Option.some.inj hexp).symm
  subst hf
  rw [show exportAllJson M = Json.arr (M.map encodeEntry) from rfl] at h ⊢
  obtain ⟨hL₁, hn⟩ := importMerge_ok_elim h
  refine ⟨hn, hL₁, ?_⟩
  rw [importMerge_arr, anyNull_encode, if_neg Bool.false_ne_true]
  have hNI : newImagesOf L₁ (M.map encodeEntry) = [] := by
    unfold newImagesOf
    apply List.filter_eq_nil_iff.mpr
    intro img hmem
    rw [Bool.not_eq_true, Bool.not_eq_false']
    apply (contains_ids_iff L₁ img.id).mpr
    subst hL₁
    rw [List.map_append, List.mem_append]
    by_cases hin : img.id ∈ L.map SavedImage.id
    · right; exact hin
    · left
      have himg : img ∈ newImagesOf L (M.map encodeEntry) :=
        mem_newImagesOf.mpr ⟨hmem, hin⟩
      exact List.mem_map_of_mem SavedImage.id himg
  rw [hNI]
  simp

theorem import_idempotent_witness :
    importMerge [⟨"a", "d", "m", "p", 1⟩]
      (some (exportAllJson [⟨"a", "d", "m", "p", 1⟩])) =
      .ok ([⟨"a", "d", "m", "p", 1⟩], 0) :=
  (import_idempotent [] [⟨"a", "d", "m", "p", 1⟩] [⟨"a", "d", "m", "p", 1⟩] 1
    (exportAllJson [⟨"a", "d", "m", "p", 1⟩]) rfl rfl).2.2

/-- Claim C8 (amended): whenever an import of an array payload completes
normally, every entry failing the spec's structural validation was dropped
by the validation filter silently — the outcome is still a success whose
result prepends only validated survivors.  A null array entry instead
aborts the whole import with the user-visible parse error (the JavaScript
property access item.id throws on null), see the counterexample. -/
theorem import_invalid_dropped (L : List SavedImage) (items : List Json)
    (L' : List SavedImage) (n : Nat) (j : Json)
    (hok : importMerge L (some (Json.arr items)) = .ok (L', n))
    (_hj : j ∈ items) (hinvalid : specStructuralValid j = false) :
    j ∉ items.filter validEntry ∧ L' = newImagesOf L items ++ L := by
  refine ⟨?_, (importMerge_ok_elim hok).1⟩
  intro hmem
  rw [List.mem_filter] at hmem
  have hv := validEntry_implies_spec hmem.2
  rw [hinvalid] at hv
  cases hv

theorem import_invalid_dropped_witness :
    importMerge []
      (some (Json.arr [Json.obj [("id", Json.str "a"),
                                 ("imageDataUrl", Json.str "d"),
                                 ("prompt", Json.str "p")]])) = .ok ([], 0) ∧
    Json.obj [("id", Json.str "a"), ("imageDataUrl", Json.str "d"),
              ("prompt", Json.str "p")] ∉
      [Json.obj [("id", Json.str "a"), ("imageDataUrl", Json.str "d"),
                 ("prompt", Json.str "p")]].filter validEntry :=
  ⟨rfl,
   (import_invalid_dropped []
      [Json.obj [("id", Json.str "a"), ("imageDataUrl", Json.str "d"),
                 ("prompt", Json.str "p")]]
      [] 0
      (Json.obj [("id", Json.str "a"), ("imageDataUrl", Json.str "d"),
                 ("prompt", Json.str "p")])
      rfl (List.mem_singleton.mpr rfl) rfl).1⟩

/-- Claim C8 counterexample: importing the one-element array holding the
JSON null — an entry that fails structural validation — is not a silent
drop: the import fails with the user-visible parse error, because the
filter's property access item.id throws a TypeError on null. -/
theorem import_invalid_dropped_cex :
    specStructuralValid Json.null = false ∧
    importMerge [] (some (Json.arr [Json.null])) = .error ImportError.parse ∧
    importMergeState [] (some (Json.arr [Json.null])) = [] :=
  ⟨rfl, rfl, rfl⟩

theorem style_prompt_forwarded_witness :
    (generateImageFromText "a cat" (some "vintage") "1:1").prompt =
      specStyledPrompt "a cat" (some "vintage") ∧
    (generateImageFromText "a cat" none "1:1").prompt = "a cat" :=
  ⟨style_prompt_forwarded.1 "a cat" (some "vintage") "1:1",
   style_prompt_forwarded.1 "a cat" none "1:1"⟩

end PhotoStudio
